import Mathlib

/-!
Shallow embedding of `src/kernel.py` (SublimeHermes, class `KernelConnection`).

The Python module drives a Jupyter-style kernel over a websocket channel:
`_communicate` sends one envelope and reads frames until a frame whose
top-level `msg_type` ends with `_reply`; `AsyncCommunicator.run` is the
single worker thread consuming a FIFO queue of (message, callback) pairs;
`execute_code` dispatches `display_data` and `execute_result` payloads to
MIME-keyed handler tables; `get_complete` performs a synchronous
completion request; `_handle_text` renders a truncated input echo.

Frames are modelled with exactly the JSON fields the code reads
(`msg_type` at top level, `header.msg_type`, `content.data`,
`content.matches`); the fields the code indexes unconditionally are
total, the ones it guards (`data` via try/except, membership) are
`Option`.  Python exceptions raised at each failure site are named after
the error taxonomy of the specification.  Handlers are modelled by their
observable behavior: each invocation either returns, raises `KeyError`
(which the dispatch loops swallow), or raises some other exception.
-/

/-- Reason carried by a protocol violation, per the specification taxonomy. -/
inductive ProtocolReason
  | incompleteReply
  | unexpectedReplyCount
  deriving DecidableEq, Repr

/-- Failure values for the Python exceptions the embedded code can raise.
`transportError` stands for a failure to open the channel or send;
`protocolViolation` for a stream ending early or a wrong count of
matching content blocks; `tooManyResults` for the unpacking failure on
more than one `execute_result` block; `handlerFault` for a non-KeyError
exception escaping a registered handler; `keyError` for a missing
mandatory JSON field. -/
inductive PyErr
  | transportError
  | protocolViolation (reason : ProtocolReason)
  | tooManyResults
  | handlerFault
  | keyError
  deriving DecidableEq, Repr

/-- A MIME-keyed payload mapping, as an ordered association list
(a Python dict iterated in insertion order). -/
abbrev MimeMap := List (String × String)

/-- Value produced by `extract_data`: either the JSON object stored under
the `data` key, or the Python string fallback returned on `KeyError`. -/
inductive DataVal
  | map (m : MimeMap)
  | str (s : String)
  deriving DecidableEq, Repr

/-- A content block.  `data` models the optional `data` field read by
`extract_data`; `matches` models the `matches` field read by
`get_complete` on a `complete_reply` block. -/
structure Content where
  data : Option MimeMap := none
  matchesField : Option (List String) := none
  deriving DecidableEq, Repr

/-- The header object of a frame; the code only reads its `msg_type`. -/
structure Header where
  msg_type : String
  deriving DecidableEq, Repr

/-- One deserialized websocket frame.  The code reads the top-level
`msg_type` key (termination check in `_communicate`) and the
`header.msg_type` key (filtering in `extract_content`); both are fields
of the serialized Jupyter message, and nothing forces them to agree. -/
structure Frame where
  msg_type : String
  header : Header
  content : Content := {}
  deriving DecidableEq, Repr

/-- Source constant `MSG_TYPE_EXECUTE_RESULT`. -/
def MSG_TYPE_EXECUTE_RESULT : String := "execute_result"

/-- Source constant `MSG_TYPE_COMPLETE_REPLY`. -/
def MSG_TYPE_COMPLETE_REPLY : String := "complete_reply"

/-- Source constant `MSG_TYPE_DISPLAY_DATA`. -/
def MSG_TYPE_DISPLAY_DATA : String := "display_data"

/-- Python `s.endswith(suffix)`. -/
def strEndsWith (s suff : String) : Bool :=
  List.isSuffixOf suff.data s.data

/-- `extract_content(messages, msg_type)`: the content blocks of the
frames whose `header.msg_type` equals `msg_type`, in arrival order. -/
def extract_content (messages : List Frame) (msg_type : String) : List Content :=
  (messages.filter (fun m => m.header.msg_type == msg_type)).map Frame.content

/-- `extract_data(result)`: the `data` field of a content block, or the
empty Python string when the key is absent (the `except KeyError`
branch). -/
def extract_data (result : Content) : DataVal :=
  match result.data with
  | some d => DataVal.map d
  | none => DataVal.str ""

/-- Iterating a `DataVal` the way the Python `for mime_type in data`
loops do: a dict yields its entries; `extract_data` only ever produces
the empty string in the string case, over which iteration yields
nothing. -/
def DataVal.entries : DataVal → List (String × String)
  | DataVal.map m => m
  | DataVal.str _ => []

/-- The behavior of one fresh websocket channel, as seen by
`_communicate`: opening/sending can fail, or the channel yields a finite
sequence of frames and then closes. -/
inductive Channel
  | failToOpen
  | yields (frames : List Frame)

/-- The receive loop of `_communicate`: append each received frame to
`replies`, stop after a frame whose top-level `msg_type` ends with
`_reply`; a `recv` on the closed channel raises, which the
specification taxonomy names `ProtocolViolation(IncompleteReply)`. -/
def recvLoop : List Frame → List Frame → Except PyErr (List Frame)
  | [], _ => Except.error (PyErr.protocolViolation ProtocolReason.incompleteReply)
  | f :: rest, replies =>
    let replies := replies ++ [f]
    if strEndsWith f.msg_type "_reply" then Except.ok replies
    else recvLoop rest replies

/-- `KernelConnection._communicate(message)`.  The serialized request
does not influence the frames the kernel side sends back, so the
channel behavior is the parameter; failing to open the connection or to
send is `TransportError`. -/
def _communicate (ch : Channel) : Except PyErr (List Frame) :=
  match ch with
  | Channel.failToOpen => Except.error PyErr.transportError
  | Channel.yields frames => recvLoop frames []

/-- Observable behavior of one registered handler invocation: return
normally, raise `KeyError` (swallowed by the dispatch loops in
`execute_code`), or raise any other exception. -/
inductive HOutcome
  | ok
  | raiseKeyError
  | raiseOther
  deriving DecidableEq, Repr

/-- A handler invocation recorded by the dispatch loops: `display` for
`self._handle_display_data[mime]` calls, `run` for
`self._run_commands[mime]` calls. -/
inductive Event
  | display (mime payload : String)
  | run (mime code payload : String)
  deriving DecidableEq, Repr

/-- Whether an event is a result-handler (`_run_commands`) invocation. -/
def Event.isRun : Event → Bool
  | Event.run _ _ _ => true
  | _ => false

/-- The `self._handle_display_data` table: MIME type to handler behavior
on one payload. -/
abbrev DisplayRegistry := List (String × (String → HOutcome))

/-- The `self._run_commands` table: MIME type to handler behavior on
(code, payload). -/
abbrev RunRegistry := List (String × (String → String → HOutcome))

/-- The inner loop of the display step of `execute_code`:
`for mime_type in display_data: try: handle[mime_type](payload) except
KeyError: pass`.  An unmapped MIME key raises `KeyError` at the table
lookup and is swallowed; a handler raising `KeyError` is likewise
swallowed; any other handler exception propagates, aborting the loop. -/
def dispatchDisplayEntries (reg : DisplayRegistry) : List (String × String) → List Event × Option PyErr
  | [] => ([], none)
  | (mime, payload) :: rest =>
    match List.lookup mime reg with
    | none => dispatchDisplayEntries reg rest
    | some h =>
      if h payload = HOutcome.raiseOther then
        ([Event.display mime payload], some PyErr.handlerFault)
      else
        (Event.display mime payload :: (dispatchDisplayEntries reg rest).1,
          (dispatchDisplayEntries reg rest).2)

/-- The outer loop of the display step of `execute_code`: one iteration
per `display_data` content block, in arrival order; a propagating
handler exception aborts the remaining blocks. -/
def dispatchDisplayBlocks (reg : DisplayRegistry) : List Content → List Event × Option PyErr
  | [] => ([], none)
  | c :: rest =>
    match (dispatchDisplayEntries reg (extract_data c).entries).2 with
    | some e => ((dispatchDisplayEntries reg (extract_data c).entries).1, some e)
    | none =>
      ((dispatchDisplayEntries reg (extract_data c).entries).1 ++ (dispatchDisplayBlocks reg rest).1,
        (dispatchDisplayBlocks reg rest).2)

/-- The result loop of `execute_code`: `for mime_type in data: if
mime_type in self._run_commands: try: run[mime_type](code, payload)
except KeyError: pass`. -/
def dispatchRunEntries (reg : RunRegistry) (code : String) : List (String × String) → List Event × Option PyErr
  | [] => ([], none)
  | (mime, payload) :: rest =>
    match List.lookup mime reg with
    | none => dispatchRunEntries reg code rest
    | some h =>
      if h code payload = HOutcome.raiseOther then
        ([Event.run mime code payload], some PyErr.handlerFault)
      else
        (Event.run mime code payload :: (dispatchRunEntries reg code rest).1,
          (dispatchRunEntries reg code rest).2)

/-- The result step of the `execute_code` callback: return when there is
no `execute_result` block; `result, = result_content` raises on more
than one block, which the specification taxonomy names
`TooManyResults`; otherwise dispatch the single payload. -/
def resultStep (reg : RunRegistry) (code : String) (blocks : List Content) : List Event × Option PyErr :=
  match blocks with
  | [] => ([], none)
  | [r] => dispatchRunEntries reg code (extract_data r).entries
  | _ => ([], some PyErr.tooManyResults)

/-- The completion callback defined inside `execute_code`: the display
step over all `display_data` blocks, then, when no exception escaped it,
the result step over the `execute_result` blocks.  The returned trace
lists the handler invocations in order; the returned error is the
exception escaping the callback, if any. -/
def execute_callback (dreg : DisplayRegistry) (rreg : RunRegistry) (code : String)
    (reply : List Frame) : List Event × Option PyErr :=
  match (dispatchDisplayBlocks dreg (extract_content reply MSG_TYPE_DISPLAY_DATA)).2 with
  | some e => ((dispatchDisplayBlocks dreg (extract_content reply MSG_TYPE_DISPLAY_DATA)).1, some e)
  | none =>
    ((dispatchDisplayBlocks dreg (extract_content reply MSG_TYPE_DISPLAY_DATA)).1 ++
        (resultStep rreg code (extract_content reply MSG_TYPE_EXECUTE_RESULT)).1,
      (resultStep rreg code (extract_content reply MSG_TYPE_EXECUTE_RESULT)).2)

/-- `KernelConnection.get_complete(code, cursor_pos)`: a synchronous
`_communicate` followed by `content, = extract_content(reply,
MSG_TYPE_COMPLETE_REPLY)` (whose unpacking failure the specification
taxonomy names `ProtocolViolation(UnexpectedReplyCount)`) and
`content["matches"]`.  The request content (`code`, `cursor_pos`) is
only serialized into the envelope and does not influence the channel. -/
def get_complete (ch : Channel) (_code : String) (_cursor_pos : Nat) : Except PyErr (List String) :=
  match _communicate ch with
  | Except.error e => Except.error e
  | Except.ok reply =>
    match extract_content reply MSG_TYPE_COMPLETE_REPLY with
    | [c] =>
      match c.matchesField with
      | some ms => Except.ok ms
      | none => Except.error PyErr.keyError
    | _ => Except.error (PyErr.protocolViolation ProtocolReason.unexpectedReplyCount)

/-- `KernelConnection._handle_text(code, result)` with the configured
`max_shown_input_length`: truncate the input echo when it is strictly
longer than the maximum, then write the six lines, each with a newline
appended. -/
def _handle_text (maxLen : Nat) (code result : String) : List String :=
  let code := if maxLen < code.length then code.take maxLen ++ "..." else code
  List.map (fun line => line ++ "\n") ["input:", code, "output:", result, "---", "\n"]

/-- One entry of the dispatcher queue together with the behavior of the
fresh channel its exchange will open: `AsyncCommunicator.message_queue`
holds (message, callback) pairs; the callback is modelled by its
observable trace and escaping exception. -/
structure PendingTask where
  id : Nat
  channel : Channel
  callback : List Frame → List Event × Option PyErr

/-- Observable action of the worker loop: a callback invocation with the
trace it produced, or the `print(err)` of the catch-all handler. -/
inductive WorkerEvent
  | callbackInvoked (id : Nat) (evs : List Event)
  | printed (e : PyErr)
  deriving DecidableEq, Repr

/-- One iteration of `AsyncCommunicator.run`: exchange, then callback,
inside `try ... except Exception as err: print(err)`.  When the exchange
raises, the callback is never reached; when the callback raises, the
exception is printed and the loop continues. -/
def workerStep (t : PendingTask) : List WorkerEvent :=
  match _communicate t.channel with
  | Except.error e => [WorkerEvent.printed e]
  | Except.ok reply =>
    match (t.callback reply).2 with
    | none => [WorkerEvent.callbackInvoked t.id (t.callback reply).1]
    | some e => [WorkerEvent.callbackInvoked t.id (t.callback reply).1, WorkerEvent.printed e]

/-- The worker loop of `AsyncCommunicator.run` over the FIFO queue
contents, one task at a time in submission order. -/
def workerRun : List PendingTask → List WorkerEvent
  | [] => []
  | t :: rest => workerStep t ++ workerRun rest

/-- Whether the exchange of a task succeeds. -/
def exchOk (t : PendingTask) : Bool :=
  match _communicate t.channel with
  | Except.ok _ => true
  | Except.error _ => false

/-- The task identities whose callbacks were invoked, in trace order. -/
def callbackIds (evs : List WorkerEvent) : List Nat :=
  evs.filterMap (fun ev => match ev with
    | WorkerEvent.callbackInvoked i _ => some i
    | _ => none)

/-! Concrete frames, registries and tasks used by the closed theorems below. -/

/-- A frame that is not a terminal reply under either field. -/
def fStreamW : Frame := { msg_type := "stream", header := { msg_type := "stream" } }

/-- A terminal `execute_reply` frame (both fields agree, as on the wire). -/
def fReplyW : Frame := { msg_type := "execute_reply", header := { msg_type := "execute_reply" } }

/-- A frame whose `header.msg_type` is a terminal reply type while its
top-level `msg_type` is not: the two termination criteria disagree here. -/
def fHeaderReplyW : Frame := { msg_type := "stream", header := { msg_type := "execute_reply" } }

/-- A `complete_reply` frame carrying a `matches` list. -/
def fCompleteW : Frame :=
  { msg_type := "complete_reply", header := { msg_type := "complete_reply" },
    content := { matchesField := some ["foo", "foobar"] } }

/-- A content block without a `data` field. -/
def contentNoData : Content := {}

/-- A content block with a one-entry `data` mapping. -/
def contentWithData : Content := { data := some [("text/plain", "42")] }

/-- A display handler that returns normally on every payload. -/
def hOkW : String → HOutcome := fun _ => HOutcome.ok

/-- A display registry with one well-behaved png handler. -/
def dregW : DisplayRegistry := [("image/png", hOkW)]

/-- A `display_data` frame with a png payload. -/
def fDisplayW : Frame :=
  { msg_type := "display_data", header := { msg_type := "display_data" },
    content := { data := some [("image/png", "PNGDATA")] } }

/-- An `execute_result` frame with a text payload. -/
def fResultW : Frame :=
  { msg_type := "execute_result", header := { msg_type := "execute_result" },
    content := { data := some [("text/plain", "42")] } }

/-- A reply stream with one display block and two result blocks. -/
def replyW : List Frame := [fDisplayW, fResultW, fResultW, fReplyW]

/-- A reply stream with one display block and no result block. -/
def replyNoResultW : List Frame := [fDisplayW, fReplyW]

/-- A display handler that raises a non-KeyError exception on every payload. -/
def hFaultW : String → HOutcome := fun _ => HOutcome.raiseOther

/-- A display handler that returns normally on every payload. -/
def hTextW : String → HOutcome := fun _ => HOutcome.ok

/-- A display registry where the png handler faults and the text handler
is well behaved. -/
def dregFaultW : DisplayRegistry := [("image/png", hFaultW), ("text/plain", hTextW)]

/-- A `display_data` frame whose payload has two MIME keys, both mapped
in `dregFaultW`. -/
def fDisplayTwoW : Frame :=
  { msg_type := "display_data", header := { msg_type := "display_data" },
    content := { data := some [("image/png", "P"), ("text/plain", "T")] } }

/-- A reply stream whose display dispatch hits the faulting handler. -/
def replyFaultW : List Frame := [fDisplayTwoW, fReplyW]

/-- A queued task whose channel cannot be opened. -/
def tFailW : PendingTask :=
  { id := 0, channel := Channel.failToOpen, callback := fun _ => ([], none) }

/-- A queued execute task whose callback is the `execute_code` callback
over `dregFaultW`, so the callback raises `handlerFault`. -/
def tFaultW : PendingTask :=
  { id := 6, channel := Channel.yields replyFaultW,
    callback := execute_callback dregFaultW [] "code" }

/-- A later queued task with a successful exchange and callback. -/
def tNextW : PendingTask :=
  { id := 7, channel := Channel.yields [fReplyW], callback := fun _ => ([], none) }

/-! Helper lemmas about the receive loop, the display dispatch and the
worker loop. -/

/-- When no received frame has a terminal top-level `msg_type`, the
receive loop runs off the end of the channel and raises, whatever has
been accumulated so far. -/
theorem recvLoop_no_reply (frames : List Frame) (acc : List Frame)
    (h : ∀ f ∈ frames, strEndsWith f.msg_type "_reply" = false) :
    recvLoop frames acc = Except.error (PyErr.protocolViolation ProtocolReason.incompleteReply) := by
  induction frames generalizing acc with
  | nil => rfl
  | cons f rest ih =>
    have hf := h f (by simp)
    simp only [recvLoop, hf, Bool.false_eq_true, if_false]
    exact ih _ (fun g hg => h g (by simp [hg]))

/-- When some received frame has a terminal top-level `msg_type`, the
receive loop returns the accumulator followed by the frames up to and
including the first such frame. -/
theorem recvLoop_first_reply (frames : List Frame) (acc : List Frame)
    (h : frames.findIdx (fun f => strEndsWith f.msg_type "_reply") < frames.length) :
    recvLoop frames acc =
      Except.ok (acc ++ frames.take (frames.findIdx (fun f => strEndsWith f.msg_type "_reply") + 1)) := by
  induction frames generalizing acc with
  | nil => simp at h
  | cons f rest ih =>
    by_cases hf : strEndsWith f.msg_type "_reply" = true
    · simp [recvLoop, hf, List.findIdx_cons]
    · have hf' : strEndsWith f.msg_type "_reply" = false := by simpa using hf
      rw [List.findIdx_cons] at h ⊢
      simp only [hf', cond_false] at h ⊢
      simp only [recvLoop, hf', Bool.false_eq_true, if_false]
      rw [ih (acc ++ [f]) (by simpa using h)]
      simp [List.take_succ_cons]

/-- When the display dispatch over one payload mapping completes without
a propagating exception, every entry whose MIME key is mapped in the
registry produced a recorded handler invocation. -/
theorem dde_none_mem (reg : DisplayRegistry) (entries : List (String × String))
    (hok : (dispatchDisplayEntries reg entries).2 = none) :
    ∀ mp ∈ entries, ∀ h, List.lookup mp.1 reg = some h →
      Event.display mp.1 mp.2 ∈ (dispatchDisplayEntries reg entries).1 := by
  induction entries with
  | nil => intro mp hmp; simp at hmp
  | cons e rest ih =>
    obtain ⟨mime, payload⟩ := e
    intro mp hmp h hlk
    cases hL : List.lookup mime reg with
    | none =>
      simp only [dispatchDisplayEntries, hL] at hok ⊢
      rcases List.mem_cons.mp hmp with rfl | hmp'
      · rw [hL] at hlk; exact Option.noConfusion hlk
      · exact ih hok mp hmp' h hlk
    | some hh =>
      by_cases hO : hh payload = HOutcome.raiseOther
      · simp only [dispatchDisplayEntries, hL, hO, if_true] at hok
        simp at hok
      · simp only [dispatchDisplayEntries, hL, hO, if_false] at hok ⊢
        rcases List.mem_cons.mp hmp with rfl | hmp'
        · exact List.mem_cons_self _ _
        · exact List.mem_cons_of_mem _ (ih hok mp hmp' h hlk)

/-- Block-level version of `dde_none_mem`: when the whole display step
completes without a propagating exception, every mapped entry of every
`display_data` block produced a recorded handler invocation. -/
theorem ddb_none_mem (reg : DisplayRegistry) (blocks : List Content)
    (hok : (dispatchDisplayBlocks reg blocks).2 = none) :
    ∀ c ∈ blocks, ∀ mp ∈ (extract_data c).entries, ∀ h, List.lookup mp.1 reg = some h →
      Event.display mp.1 mp.2 ∈ (dispatchDisplayBlocks reg blocks).1 := by
  induction blocks with
  | nil => intro c hc; simp at hc
  | cons b rest ih =>
    intro c hc mp hmp h hlk
    cases hE : (dispatchDisplayEntries reg (extract_data b).entries).2 with
    | some e =>
      simp only [dispatchDisplayBlocks, hE] at hok
      exact Option.noConfusion hok
    | none =>
      simp only [dispatchDisplayBlocks, hE] at hok ⊢
      rcases List.mem_cons.mp hc with rfl | hc'
      · exact List.mem_append_left _ (dde_none_mem reg _ hE mp hmp h hlk)
      · exact List.mem_append_right _ (ih hok c hc' mp hmp h hlk)

/-- The display dispatch over one payload mapping only records display
handler invocations, never result handler invocations. -/
theorem dde_no_run (reg : DisplayRegistry) (entries : List (String × String)) :
    ∀ ev ∈ (dispatchDisplayEntries reg entries).1, ev.isRun = false := by
  induction entries with
  | nil => intro ev hev; simp [dispatchDisplayEntries] at hev
  | cons e rest ih =>
    obtain ⟨mime, payload⟩ := e
    intro ev hev
    cases hL : List.lookup mime reg with
    | none =>
      simp only [dispatchDisplayEntries, hL] at hev
      exact ih ev hev
    | some hh =>
      by_cases hO : hh payload = HOutcome.raiseOther
      · simp only [dispatchDisplayEntries, hL, hO, if_true] at hev
        simp at hev
        subst hev; rfl
      · simp only [dispatchDisplayEntries, hL, hO, if_false] at hev
        rcases List.mem_cons.mp hev with rfl | hev'
        · rfl
        · exact ih ev hev'

/-- Block-level version of `dde_no_run`. -/
theorem ddb_no_run (reg : DisplayRegistry) (blocks : List Content) :
    ∀ ev ∈ (dispatchDisplayBlocks reg blocks).1, ev.isRun = false := by
  induction blocks with
  | nil => intro ev hev; simp [dispatchDisplayBlocks] at hev
  | cons b rest ih =>
    intro ev hev
    cases hE : (dispatchDisplayEntries reg (extract_data b).entries).2 with
    | some e =>
      simp only [dispatchDisplayBlocks, hE] at hev
      exact dde_no_run reg _ ev hev
    | none =>
      simp only [dispatchDisplayBlocks, hE] at hev
      rcases List.mem_append.mp hev with hev' | hev'
      · exact dde_no_run reg _ ev hev'
      · exact ih ev hev'

/-- The worker trace over a concatenation of queue contents is the
concatenation of the traces. -/
theorem workerRun_append (l1 l2 : List PendingTask) :
    workerRun (l1 ++ l2) = workerRun l1 ++ workerRun l2 := by
  induction l1 with
  | nil => rfl
  | cons t rest ih => simp [workerRun, ih]

/-- `callbackIds` distributes over trace concatenation. -/
theorem callbackIds_append (l1 l2 : List WorkerEvent) :
    callbackIds (l1 ++ l2) = callbackIds l1 ++ callbackIds l2 := by
  simp [callbackIds]

/-- A task whose exchange succeeds has its callback invoked exactly once
by its worker iteration. -/
theorem callbackIds_workerStep (t : PendingTask) (h : exchOk t = true) :
    callbackIds (workerStep t) = [t.id] := by
  unfold exchOk at h
  cases hC : _communicate t.channel with
  | error e => rw [hC] at h; simp at h
  | ok reply =>
    simp only [workerStep, hC]
    cases hO : (t.callback reply).2 with
    | none => simp [callbackIds]
    | some e => simp [callbackIds]

/-! Claim theorems. -/

/-- Claim C1 (code behavior at the failing input): when the exchange of a
queued task fails with `TransportError`, the worker catch-all only
prints the error; the task callback is never invoked, so the failure is
not delivered to the callback as an error value.  The claim, which
requires delivery to the callback, is therefore violated by the code. -/
theorem c1_async_error_not_delivered_to_callback :
    workerRun [tFailW] = [WorkerEvent.printed PyErr.transportError] ∧
    callbackIds (workerRun [tFailW]) = [] := ⟨rfl, rfl⟩

/-- Claim C2 (counterexample): a frame whose `header.msg_type` ends with
`_reply` but whose top-level `msg_type` does not is not treated as a
terminal frame: the exchange does not return the list ending at that
frame, as the claim states, but runs off the channel and fails. -/
theorem c2_counterexample :
    strEndsWith fHeaderReplyW.header.msg_type "_reply" = true ∧
    _communicate (Channel.yields [fHeaderReplyW]) =
      Except.error (PyErr.protocolViolation ProtocolReason.incompleteReply) ∧
    _communicate (Channel.yields [fHeaderReplyW]) ≠ Except.ok [fHeaderReplyW] := by
  refine ⟨rfl, rfl, fun h => ?_⟩
  have h2 : Except.error (PyErr.protocolViolation ProtocolReason.incompleteReply) =
      (Except.ok [fHeaderReplyW] : Except PyErr (List Frame)) := h
  exact Except.noConfusion h2

/-- Claim C2 (amended): the exchange appends each received frame in
arrival order and stops after the first frame whose top-level
`msg_type` field ends with `_reply`, returning the full ordered list up
to and including that terminal frame. -/
theorem c2_termination_by_top_level_msg_type (frames : List Frame)
    (h : ∃ f ∈ frames, strEndsWith f.msg_type "_reply" = true) :
    _communicate (Channel.yields frames) =
      Except.ok (frames.take (frames.findIdx (fun f => strEndsWith f.msg_type "_reply") + 1)) := by
  have hlt : frames.findIdx (fun f => strEndsWith f.msg_type "_reply") < frames.length := by
    obtain ⟨f, hf, hp⟩ := h
    exact List.findIdx_lt_length_of_exists ⟨f, hf, hp⟩
  simpa [_communicate] using recvLoop_first_reply frames [] hlt

/-- Witness for C2 at a two-frame stream whose second frame is terminal. -/
theorem c2_witness :
    (∃ f ∈ [fStreamW, fReplyW], strEndsWith f.msg_type "_reply" = true) ∧
    _communicate (Channel.yields [fStreamW, fReplyW]) =
      Except.ok ([fStreamW, fReplyW].take
        (([fStreamW, fReplyW].findIdx (fun f => strEndsWith f.msg_type "_reply")) + 1)) :=
  ⟨by decide, c2_termination_by_top_level_msg_type [fStreamW, fReplyW] (by decide)⟩

/-- Claim C3: when the display step of the `execute_code` callback
completes without a propagating handler exception and the reply stream
holds more than one `execute_result` content block, the callback fails
with `TooManyResults`, and every display handler invocation matched by
the `display_data` payloads of that same stream is in the trace. -/
theorem c3_too_many_results_after_display_dispatch
    (dreg : DisplayRegistry) (rreg : RunRegistry) (code : String) (reply : List Frame)
    (hdisp : (dispatchDisplayBlocks dreg (extract_content reply MSG_TYPE_DISPLAY_DATA)).2 = none)
    (hcount : 1 < (extract_content reply MSG_TYPE_EXECUTE_RESULT).length) :
    (execute_callback dreg rreg code reply).2 = some PyErr.tooManyResults ∧
    ∀ c ∈ extract_content reply MSG_TYPE_DISPLAY_DATA, ∀ mp ∈ (extract_data c).entries,
      ∀ h, List.lookup mp.1 dreg = some h →
        Event.display mp.1 mp.2 ∈ (execute_callback dreg rreg code reply).1 := by
  have hres : resultStep rreg code (extract_content reply MSG_TYPE_EXECUTE_RESULT) =
      ([], some PyErr.tooManyResults) := by
    match hE : extract_content reply MSG_TYPE_EXECUTE_RESULT with
    | [] => rw [hE] at hcount; simp at hcount
    | [r] => rw [hE] at hcount; simp at hcount
    | a :: b :: rest => simp [resultStep]
  constructor
  · simp [execute_callback, hdisp, hres]
  · intro c hc mp hmp h hlk
    have hmem := ddb_none_mem dreg _ hdisp c hc mp hmp h hlk
    simp only [execute_callback, hdisp, hres, List.append_nil]
    exact hmem

/-- Witness for C3: one display block with a mapped png payload and two
`execute_result` blocks. -/
theorem c3_witness :
    (dispatchDisplayBlocks dregW (extract_content replyW MSG_TYPE_DISPLAY_DATA)).2 = none ∧
    1 < (extract_content replyW MSG_TYPE_EXECUTE_RESULT).length ∧
    (execute_callback dregW [] "code" replyW).2 = some PyErr.tooManyResults ∧
    Event.display "image/png" "PNGDATA" ∈ (execute_callback dregW [] "code" replyW).1 := by
  refine ⟨rfl, by decide, ?_, ?_⟩
  · exact (c3_too_many_results_after_display_dispatch dregW [] "code" replyW rfl (by decide)).1
  · exact (c3_too_many_results_after_display_dispatch dregW [] "code" replyW rfl (by decide)).2
      fDisplayW.content (by decide) ("image/png", "PNGDATA") (by decide) hOkW rfl

/-- Claim C4: a channel that closes before yielding any frame whose
`msg_type` ends with `_reply` makes the exchange fail with
`ProtocolViolation(IncompleteReply)`. -/
theorem c4_incomplete_reply_on_channel_close (frames : List Frame)
    (h : ∀ f ∈ frames, strEndsWith f.msg_type "_reply" = false) :
    _communicate (Channel.yields frames) =
      Except.error (PyErr.protocolViolation ProtocolReason.incompleteReply) :=
  recvLoop_no_reply frames [] h

/-- Witness for C4 at a bounded channel with two non-terminal frames. -/
theorem c4_witness :
    (∀ f ∈ [fStreamW, fHeaderReplyW], strEndsWith f.msg_type "_reply" = false) ∧
    _communicate (Channel.yields [fStreamW, fHeaderReplyW]) =
      Except.error (PyErr.protocolViolation ProtocolReason.incompleteReply) :=
  ⟨by decide, c4_incomplete_reply_on_channel_close [fStreamW, fHeaderReplyW] (by decide)⟩

/-- Claim C5: for a reply stream obtained by a successful exchange,
`get_complete` returns the `matches` list of the single `complete_reply`
content block unmodified; when the count of such blocks is not one, it
fails with `ProtocolViolation(UnexpectedReplyCount)` (the unpacking
failure of the source). -/
theorem c5_complete_reply_matches (ch : Channel) (code : String) (cursor_pos : Nat)
    (reply : List Frame) (hch : _communicate ch = Except.ok reply) :
    (∀ c ms, extract_content reply MSG_TYPE_COMPLETE_REPLY = [c] → c.matchesField = some ms →
        get_complete ch code cursor_pos = Except.ok ms) ∧
    ((extract_content reply MSG_TYPE_COMPLETE_REPLY).length ≠ 1 →
        get_complete ch code cursor_pos =
          Except.error (PyErr.protocolViolation ProtocolReason.unexpectedReplyCount)) := by
  constructor
  · intro c ms h1 h2
    simp [get_complete, hch, h1, h2]
  · intro hlen
    match hE : extract_content reply MSG_TYPE_COMPLETE_REPLY with
    | [] => simp [get_complete, hch, hE]
    | [c] => rw [hE] at hlen; simp at hlen
    | a :: b :: rest => simp [get_complete, hch, hE]

/-- Witness for C5 at a stream with exactly one `complete_reply` block
whose matches are the two completions of the specification example. -/
theorem c5_witness :
    _communicate (Channel.yields [fCompleteW]) = Except.ok [fCompleteW] ∧
    extract_content [fCompleteW] MSG_TYPE_COMPLETE_REPLY = [fCompleteW.content] ∧
    fCompleteW.content.matchesField = some ["foo", "foobar"] ∧
    get_complete (Channel.yields [fCompleteW]) "fo" 2 = Except.ok ["foo", "foobar"] :=
  ⟨rfl, rfl, rfl,
    (c5_complete_reply_matches (Channel.yields [fCompleteW]) "fo" 2 [fCompleteW] rfl).1
      fCompleteW.content ["foo", "foobar"] rfl rfl⟩

/-- Claim C6 (code behavior at the failing input): a registered display
handler raising a non-KeyError exception on the first MIME payload of a
block aborts the dispatch of the remaining payloads of the same reply
(the mapped text handler is never invoked), and the exception escapes
the callback; the worker prints it and does proceed to the next task.
The isolation part of the claim is therefore violated by the code. -/
theorem c6_handler_fault_not_isolated :
    execute_callback dregFaultW [] "code" replyFaultW =
      ([Event.display "image/png" "P"], some PyErr.handlerFault) ∧
    List.lookup "text/plain" dregFaultW = some hTextW ∧
    ("text/plain", "T") ∈ (extract_data fDisplayTwoW.content).entries ∧
    workerRun [tFaultW, tNextW] =
      [WorkerEvent.callbackInvoked 6 [Event.display "image/png" "P"],
        WorkerEvent.printed PyErr.handlerFault,
        WorkerEvent.callbackInvoked 7 []] := ⟨rfl, rfl, by decide, rfl⟩

/-- Claim C7 (counterexample): on a content block without a `data`
field, `extract_data` returns the empty Python string, not an empty
mapping. -/
theorem c7_counterexample : extract_data contentNoData ≠ DataVal.map [] := by decide

/-- Claim C7 (amended): `extract_data` returns the `data` field when it
is present, and the empty string when it is absent; the empty string
yields no MIME entries when iterated, and absence is handled by the
total fallback branch rather than by raising. -/
theorem c7_extract_data_behavior (c : Content) :
    (∀ m, c.data = some m → extract_data c = DataVal.map m) ∧
    (c.data = none → extract_data c = DataVal.str "" ∧ (extract_data c).entries = []) := by
  constructor
  · intro m hm; simp [extract_data, hm]
  · intro hn; simp [extract_data, hn, DataVal.entries]

/-- Witness for C7 at a block with a `data` field and one without. -/
theorem c7_witness :
    contentWithData.data = some [("text/plain", "42")] ∧
    extract_data contentWithData = DataVal.map [("text/plain", "42")] ∧
    contentNoData.data = none ∧
    extract_data contentNoData = DataVal.str "" ∧ (extract_data contentNoData).entries = [] := by
  refine ⟨rfl, ?_, rfl, ?_, ?_⟩
  · exact (c7_extract_data_behavior contentWithData).1 [("text/plain", "42")] rfl
  · exact ((c7_extract_data_behavior contentNoData).2 rfl).1
  · exact ((c7_extract_data_behavior contentNoData).2 rfl).2

/-- Claim C8: the single worker consumes the FIFO queue one task at a
time, so its trace is the concatenation of the per-task traces in
submission order, with no interleaving (at most one exchange in flight);
when every exchange succeeds, the callbacks fire exactly once each, in
submission order, even when an earlier callback raises: the catch-all
keeps the worker alive and it proceeds to the next task. -/
theorem c8_fifo_dispatch (tasks : List PendingTask) :
    ((∀ t ∈ tasks, exchOk t = true) →
      callbackIds (workerRun tasks) = tasks.map PendingTask.id) ∧
    ∀ pre t post, tasks = pre ++ t :: post →
      workerRun tasks = workerRun pre ++ (workerStep t ++ workerRun post) := by
  constructor
  · intro hall
    induction tasks with
    | nil => rfl
    | cons t rest ih =>
      have ht := hall t (by simp)
      have hrest : ∀ t' ∈ rest, exchOk t' = true := fun t' ht' => hall t' (by simp [ht'])
      calc callbackIds (workerRun (t :: rest))
          = callbackIds (workerStep t ++ workerRun rest) := rfl
        _ = callbackIds (workerStep t) ++ callbackIds (workerRun rest) := callbackIds_append _ _
        _ = t.id :: callbackIds (workerRun rest) := by rw [callbackIds_workerStep t ht]; rfl
        _ = t.id :: rest.map PendingTask.id := by rw [ih hrest]
        _ = (t :: rest).map PendingTask.id := rfl
  · intro pre t post hsplit
    subst hsplit
    rw [workerRun_append]
    rfl

/-- Witness for C8 at a two-task queue whose first callback raises: both
callbacks still fire, in submission order. -/
theorem c8_witness :
    (∀ t ∈ [tFaultW, tNextW], exchOk t = true) ∧
    callbackIds (workerRun [tFaultW, tNextW]) = [tFaultW, tNextW].map PendingTask.id ∧
    workerRun [tFaultW, tNextW] = workerRun [tFaultW] ++ (workerStep tNextW ++ workerRun []) := by
  have hall : ∀ t ∈ [tFaultW, tNextW], exchOk t = true := by
    intro t ht
    rcases List.mem_cons.mp ht with rfl | ht'
    · rfl
    · rcases List.mem_cons.mp ht' with rfl | ht''
      · rfl
      · simp at ht''
  refine ⟨hall, ?_, ?_⟩
  · exact (c8_fifo_dispatch [tFaultW, tNextW]).1 hall
  · exact (c8_fifo_dispatch [tFaultW, tNextW]).2 [tFaultW] tNextW [] rfl

/-- Claim C9: the text result handler truncates the input echo to the
first L characters followed by an ellipsis when the code is strictly
longer than L, and leaves code of length exactly L unmodified. -/
theorem c9_input_truncation (L : Nat) (code result : String) :
    (L < code.length → _handle_text L code result =
      ["input:" ++ "\n", (code.take L ++ "...") ++ "\n", "output:" ++ "\n",
        result ++ "\n", "---" ++ "\n", "\n" ++ "\n"]) ∧
    (code.length = L → _handle_text L code result =
      ["input:" ++ "\n", code ++ "\n", "output:" ++ "\n",
        result ++ "\n", "---" ++ "\n", "\n" ++ "\n"]) := by
  constructor
  · intro h; simp [_handle_text, h]
  · intro h; simp [_handle_text, h]

/-- Witness for C9 at the specification example, L = 5 with codes
`abcdef` and `abcde`. -/
theorem c9_witness :
    (5 < "abcdef".length ∧ _handle_text 5 "abcdef" "out" =
      ["input:" ++ "\n", ("abcdef".take 5 ++ "...") ++ "\n", "output:" ++ "\n",
        "out" ++ "\n", "---" ++ "\n", "\n" ++ "\n"]) ∧
    ("abcde".length = 5 ∧ _handle_text 5 "abcde" "out" =
      ["input:" ++ "\n", "abcde" ++ "\n", "output:" ++ "\n",
        "out" ++ "\n", "---" ++ "\n", "\n" ++ "\n"]) :=
  ⟨⟨by decide, (c9_input_truncation 5 "abcdef" "out").1 (by decide)⟩,
    ⟨by decide, (c9_input_truncation 5 "abcde" "out").2 (by decide)⟩⟩

/-- Claim C10: when the display step completes normally and the reply
stream holds no `execute_result` content block, the `execute_code`
callback returns without error and without invoking any result
handler. -/
theorem c10_zero_results_no_result_handler
    (dreg : DisplayRegistry) (rreg : RunRegistry) (code : String) (reply : List Frame)
    (hdisp : (dispatchDisplayBlocks dreg (extract_content reply MSG_TYPE_DISPLAY_DATA)).2 = none)
    (hres : extract_content reply MSG_TYPE_EXECUTE_RESULT = []) :
    (execute_callback dreg rreg code reply).2 = none ∧
    ((execute_callback dreg rreg code reply).1).all (fun ev => !ev.isRun) = true := by
  have h1 : resultStep rreg code (extract_content reply MSG_TYPE_EXECUTE_RESULT) = ([], none) := by
    rw [hres]; rfl
  constructor
  · simp [execute_callback, hdisp, h1]
  · simp only [execute_callback, hdisp, h1, List.append_nil]
    rw [List.all_eq_true]
    intro ev hev
    simp [ddb_no_run dreg _ ev hev]

/-- Witness for C10 at a stream with one display block and no result
block. -/
theorem c10_witness :
    (dispatchDisplayBlocks dregW (extract_content replyNoResultW MSG_TYPE_DISPLAY_DATA)).2 = none ∧
    extract_content replyNoResultW MSG_TYPE_EXECUTE_RESULT = [] ∧
    (execute_callback dregW [] "code" replyNoResultW).2 = none ∧
    ((execute_callback dregW [] "code" replyNoResultW).1).all (fun ev => !ev.isRun) = true := by
  refine ⟨rfl, rfl, ?_, ?_⟩
  · exact (c10_zero_results_no_result_handler dregW [] "code" replyNoResultW rfl rfl).1
  · exact (c10_zero_results_no_result_handler dregW [] "code" replyNoResultW rfl rfl).2
